import Mathlib

/-!
Verification of the core of `sw3do/tiktok-video-downloader`
(`src/TikTokDownloader.ts`, types in `src/types.ts`).

The URL machinery (`cleanTikTokUrl`, `isValidTikTokUrl`, `extractVideoId`)
is embedded as executable functions on `List Char`.  The JavaScript regular
expressions used by the source are all deterministic in the sense that
backtracking can never change the outcome (each greedy `X+` is followed
either by a literal whose first character fails the class `X`, or by
nothing), so each regex is embedded as a direct maximal-munch scanner; the
correspondence is argued in a comment next to each definition.

The two network calls (`axios.get` of the video page inside
`fetchVideoData`, and the mirror-API call inside `getWatermarkFreeUrl`)
are modelled as oracles living in a `NetworkEnv`.  The page oracle returns
one of the outcomes distinguished by the source's `fetchVideoData`
(transport error, missing script tag, invalid JSON, missing
`webapp.video-detail`/`itemInfo` path, or a successfully navigated
`itemStruct`); the mirror oracle likewise.  All exception handling in the
source (`try`/`catch` in `fetchVideoData`, `getWatermarkFreeUrl`,
`extractDownloadUrls` and `downloadVideo`) is modelled with `Option` /
`Except` values.
-/

/-- Consume the literal `pat` from the front of `l`, returning the rest.
    Embeds matching a literal fragment of a regex. -/
def dropLit : List Char → List Char → Option (List Char)
  | [], l => some l
  | _ :: _, [] => none
  | p :: ps, c :: cs => if c = p then dropLit ps cs else none

/-- Does `pat` occur as a contiguous substring of the list?  Embeds
    JavaScript `String.prototype.includes`. -/
def containsSub (pat : List Char) : List Char → Bool
  | [] => (dropLit pat []).isSome
  | c :: cs => (dropLit pat (c :: cs)).isSome || containsSub pat cs

/-- Remove leading and trailing whitespace.  Embeds JavaScript
    `String.prototype.trim` (the source only ever meets ASCII whitespace). -/
def trimChars (l : List Char) : List Char :=
  ((l.dropWhile Char.isWhitespace).reverse.dropWhile Char.isWhitespace).reverse

/-- Greedy `X+` for a character class `p`: requires at least one `p`-char
    and consumes the maximal run.  Faithful to the JavaScript regexes of the
    source because every `+` there is followed either by a literal whose
    first character fails `p` (`[^/]+` followed by `/`), or by the end of
    the pattern — in both cases backtracking cannot turn failure into
    success, so maximal munch is exact.  Returns (run, rest). -/
def matchPlus (p : Char → Bool) (l : List Char) : Option (List Char × List Char) :=
  match l with
  | [] => none
  | c :: _ => if p c then some (l.takeWhile p, l.dropWhile p) else none

/-- Character class `[A-Za-z0-9]` (`Char.isAlpha`/`Char.isDigit` are exactly
    the ASCII ranges). -/
def isAlnumChar (c : Char) : Bool := c.isAlpha || c.isDigit

/-- Consume a required URL scheme `https?:\/\/`: "https://" or "http://".
    Greedily preferring the `s` is exact: if taking the `s` fails, the next
    pattern char `:` cannot match the `s` either. -/
def dropScheme (l : List Char) : Option (List Char) :=
  match dropLit "https://".data l with
  | some r => some r
  | none => dropLit "http://".data l

/-- Optional scheme `(?:https?:\/\/)?`.  If no full scheme prefix is
    present the group matches empty; a partial prefix such as "http:"
    also makes the group match empty, and then the following literal
    (`www.` or `tiktok.com/@`, both starting with a non-`h` character)
    fails exactly as in the regex. -/
def dropSchemeOpt (l : List Char) : List Char :=
  match dropScheme l with
  | some r => r
  | none => l

/-- Optional `(?:www\.)?`.  Exact for the same reason: if `www.` is
    consumed but the following `tiktok.com/@` fails, the empty alternative
    fails as well (`t` vs `w`). -/
def dropWwwOpt (l : List Char) : List Char :=
  match dropLit "www.".data l with
  | some r => r
  | none => l

/-- Matcher for `(?:www\.)?tiktok\.com\/@[^/]+\/video\/\d+` at the start of
    `l`, returning the remainder after the (greedy) match. -/
def canonAfterScheme (l : List Char) : Option (List Char) :=
  match dropLit "tiktok.com/@".data (dropWwwOpt l) with
  | none => none
  | some l1 =>
    match matchPlus (fun c => c != '/') l1 with
    | none => none
    | some (_, l2) =>
      match dropLit "/video/".data l2 with
      | none => none
      | some l3 =>
        match matchPlus Char.isDigit l3 with
        | none => none
        | some (_, l4) => some l4

/-- Test of `/^https?:\/\/(?:www\.)?tiktok\.com\/@[^/]+\/video\/\d+/`
    (first validation pattern of `isValidTikTokUrl`). -/
def testCanonical (l : List Char) : Bool :=
  match dropScheme l with
  | none => false
  | some l1 => (canonAfterScheme l1).isSome

/-- Shared shape of the three host-anchored validation patterns
    `/^https?:\/\/<host>[X]+/`: scheme, host literal, then at least one
    character of class `p`. -/
def testHost (host : List Char) (p : Char → Bool) (l : List Char) : Bool :=
  match dropScheme l with
  | none => false
  | some l1 =>
    match dropLit host l1 with
    | none => false
    | some l2 => (matchPlus p l2).isSome

/-- Test of `/^https?:\/\/vm\.tiktok\.com\/[A-Za-z0-9]+/`. -/
def testVm (l : List Char) : Bool := testHost "vm.tiktok.com/".data isAlnumChar l

/-- Test of `/^https?:\/\/vt\.tiktok\.com\/[A-Za-z0-9]+/`. -/
def testVt (l : List Char) : Bool := testHost "vt.tiktok.com/".data isAlnumChar l

/-- Test of `/^https?:\/\/m\.tiktok\.com\/v\/\d+/`. -/
def testMobile (l : List Char) : Bool := testHost "m.tiktok.com/v/".data Char.isDigit l

/-- Embeds `isValidTikTokUrl` (source lines 133-142): `patterns.some (p => p.test url)`
    over the four anchored patterns. -/
def isValidTikTokUrl (url : String) : Bool :=
  testCanonical url.data || testVm url.data || testVt url.data || testMobile url.data

/-- Matcher for the *unanchored* pattern of `cleanTikTokUrl`,
    `/(?:https?:\/\/)?(?:www\.)?tiktok\.com\/@[^/]+\/video\/\d+/`, tried at
    the start of `l`; returns the remainder after the greedy match. -/
def canonOptRest (l : List Char) : Option (List Char) :=
  canonAfterScheme (dropSchemeOpt l)

/-- Leftmost match of the unanchored `cleanTikTokUrl` pattern: try each
    start position left to right; on success return the matched text
    (`match[0]`, i.e. everything consumed at that position). -/
def findCanonMatch : List Char → Option (List Char)
  | [] => none
  | l@(_ :: t) =>
    match canonOptRest l with
    | some r => some (l.take (l.length - r.length))
    | none => findCanonMatch t

/-- Embeds `cleanTikTokUrl` (source lines 117-125): trim; pass short links through
    unchanged; otherwise replace the string by the matched canonical
    substring when the pattern matches, else leave it unchanged. -/
def cleanTikTokUrl (url : String) : String :=
  if containsSub "vm.tiktok.com".data (trimChars url.data)
      || containsSub "vt.tiktok.com".data (trimChars url.data) then
    ⟨trimChars url.data⟩
  else
    match findCanonMatch (trimChars url.data) with
    | some m => ⟨m⟩
    | none => ⟨trimChars url.data⟩

/-- Unanchored search for `<pat>(\d+)`: scan start positions left to right;
    where the literal matches and at least one digit follows, return the
    greedy digit capture (`match[1]`).  Embeds `url.match(/<pat>(\d+)/)`. -/
def findLitThenDigits (pat : List Char) : List Char → Option (List Char)
  | [] => none
  | l@(_ :: t) =>
    match dropLit pat l with
    | some rest =>
      match matchPlus Char.isDigit rest with
      | some (d, _) => some d
      | none => findLitThenDigits pat t
    | none => findLitThenDigits pat t

/-- Embeds `extractVideoId` (source lines 150-165): try `\/video\/(\d+)`, then
    `\/v\/(\d+)`, then `video_id=(\d+)`; return the first capture, or
    `null` (here `none`) when none of them matches.  The captured digits
    are never empty, so the source's falsiness test `if (!videoId)` is
    exactly the `null` test. -/
def extractVideoId (url : String) : Option String :=
  match findLitThenDigits "/video/".data url.data with
  | some d => some ⟨d⟩
  | none =>
    match findLitThenDigits "/v/".data url.data with
    | some d => some ⟨d⟩
    | none =>
      match findLitThenDigits "video_id=".data url.data with
      | some d => some ⟨d⟩
      | none => none

/-- Nested `music` object of `TikTokVideoInfo` (src/types.ts). -/
structure MusicInfo where
  id : String
  title : String
  author : String
  duration : Int
  url : String
deriving DecidableEq, Repr

/-- Embeds `TikTokVideoInfo` (src/types.ts). -/
structure TikTokVideoInfo where
  id : String
  title : String
  description : String
  duration : Int
  playCount : Int
  likeCount : Int
  commentCount : Int
  shareCount : Int
  createTime : Int
  videoUrl : String
  coverUrl : String
  dynamicCoverUrl : Option String
  music : MusicInfo
deriving DecidableEq, Repr

/-- The `downloadUrls` object assembled by `extractDownloadUrls`. -/
structure DownloadUrls where
  video : String
  audio : Option String
  watermarkFree : Option String
deriving DecidableEq, Repr

/-- The `data` payload of a successful `TikTokDownloadResult`. -/
structure DownloadData where
  videoInfo : TikTokVideoInfo
  downloadUrls : DownloadUrls
deriving DecidableEq, Repr

/-- Embeds `TikTokDownloadResult` (src/types.ts): `data` is only present on
    success, `error` only on failure. -/
structure TikTokDownloadResult where
  success : Bool
  message : String
  data : Option DownloadData
  error : Option String
deriving DecidableEq, Repr

/-- Quality preference enum of `TikTokDownloaderOptions` (accepted but not
    load-bearing in the extraction logic). -/
inductive Quality
  | high
  | medium
  | low
deriving DecidableEq, Repr

/-- Embeds `TikTokDownloaderOptions` after the constructor applied its defaults
    (`includeWatermark` false, `quality` high, `timeout` 30000, browser-like
    `userAgent`), i.e. `Required<TikTokDownloaderOptions>`. -/
structure TikTokDownloaderOptions where
  includeWatermark : Bool
  quality : Quality
  timeout : Int
  userAgent : String
deriving DecidableEq, Repr

/-- The `stats` counters of the embedded `itemStruct`; each field may be
    absent in the upstream JSON (`none`). -/
structure ItemStats where
  playCount : Option Int
  diggCount : Option Int
  commentCount : Option Int
  shareCount : Option Int
deriving DecidableEq, Repr

/-- The `music` object of the embedded `itemStruct`. -/
structure ItemMusic where
  id : String
  title : String
  authorName : String
  duration : Int
  playUrl : String
deriving DecidableEq, Repr

/-- The `video` object of the embedded `itemStruct`. -/
structure ItemVideo where
  duration : Int
  playAddr : String
  cover : String
  dynamicCover : Option String
deriving DecidableEq, Repr

/-- The `itemStruct` payload reached by navigating
    `__DEFAULT_SCOPE__['webapp.video-detail'].itemInfo.itemStruct` in the
    rehydration JSON; `desc` may be absent. -/
structure ItemStruct where
  id : String
  desc : Option String
  createTime : Int
  stats : ItemStats
  music : ItemMusic
  video : ItemVideo
deriving DecidableEq, Repr

/-- Outcome of the page GET plus embedded-JSON navigation, as distinguished
    by `fetchVideoData` (source lines 173-234): transport failure
    (`axios` rejects / times out), missing
    `__UNIVERSAL_DATA_FOR_REHYDRATION__` script tag, `JSON.parse` failure,
    missing `webapp.video-detail`/`itemInfo` path, or a successfully
    navigated `itemStruct`. -/
inductive PageOutcome
  | netError (msg : String)
  | noScriptTag
  | badJson
  | noVideoDetail
  | ok (item : ItemStruct)

/-- Outcome of the mirror-API GET, as distinguished by
    `getWatermarkFreeUrl` (source lines 271-291): request failure, a
    response without a (truthy) `video` object, or a response carrying
    `video.noWatermark` (a string, possibly empty — the empty string is
    falsy and is treated by the source like an absent field). -/
inductive MirrorOutcome
  | netError (msg : String)
  | noVideoField
  | noWatermark (url : String)

/-- The two outbound HTTP capabilities the downloader calls, as oracles.
    Headers, timeout and user agent do not influence the modelled control
    flow and are absorbed into the oracle. -/
structure NetworkEnv where
  page : String → PageOutcome
  mirror : String → MirrorOutcome

/-- Projection of a navigated `itemStruct` into `TikTokVideoInfo`
    (source lines 202-227).  `item.desc || ''` and `stats.X || 0` are
    `Option.getD`: for a present string/number the `||` default only fires
    on the falsy values `''`/`0`, where it returns that same value. -/
def projectVideoInfo (item : ItemStruct) : TikTokVideoInfo :=
  { id := item.id
    title := item.desc.getD ""
    description := item.desc.getD ""
    duration := item.video.duration
    playCount := item.stats.playCount.getD 0
    likeCount := item.stats.diggCount.getD 0
    commentCount := item.stats.commentCount.getD 0
    shareCount := item.stats.shareCount.getD 0
    createTime := item.createTime
    videoUrl := item.video.playAddr
    coverUrl := item.video.cover
    dynamicCoverUrl := item.video.dynamicCover
    music :=
      { id := item.music.id
        title := item.music.title
        author := item.music.authorName
        duration := item.music.duration
        url := item.music.playUrl } }

/-- Embeds `fetchVideoData` (source lines 173-234): every failure branch of the
    `try` block (transport error, missing script tag, bad JSON, missing
    path) is caught by the surrounding `catch`, logged, and turned into
    `null`; a navigated `itemStruct` is projected into the info record. -/
def fetchVideoData (page : String → PageOutcome) (url : String) : Option TikTokVideoInfo :=
  match page url with
  | PageOutcome.netError _ => none
  | PageOutcome.noScriptTag => none
  | PageOutcome.badJson => none
  | PageOutcome.noVideoDetail => none
  | PageOutcome.ok item => some (projectVideoInfo item)

/-- The synthetic mirror-API URL built by `getWatermarkFreeUrl` (source
    line 273); the `@user` segment is a literal placeholder. -/
def apiUrl (videoId : String) : String :=
  "https://api.tiklydown.eu.org/api/download?url=https://www.tiktok.com/@user/video/" ++ videoId

/-- Embeds `getWatermarkFreeUrl` (source lines 271-291): one GET to the mirror
    API; any request failure is caught and yields `null`; a response is
    only used when `response.data.video.noWatermark` is truthy (so the
    empty string also yields `null`). -/
def getWatermarkFreeUrl (mirror : String → MirrorOutcome) (videoId : String) : Option String :=
  match mirror (apiUrl videoId) with
  | MirrorOutcome.netError _ => none
  | MirrorOutcome.noVideoField => none
  | MirrorOutcome.noWatermark u => if u = "" then none else some u

/-- Embeds `extractDownloadUrls` (source lines 242-263): always exposes the
    watermarked video URL and the audio URL; when `includeWatermark` is
    false additionally asks the mirror API once and attaches the
    watermark-free URL if one came back.  The source's `try`/`catch`
    fallback is unreachable (`getWatermarkFreeUrl` never throws), so it is
    not represented. -/
def extractDownloadUrls (opts : TikTokDownloaderOptions) (mirror : String → MirrorOutcome)
    (videoInfo : TikTokVideoInfo) : DownloadUrls :=
  if !opts.includeWatermark then
    match getWatermarkFreeUrl mirror videoInfo.id with
    | some u => { video := videoInfo.videoUrl, audio := some videoInfo.music.url, watermarkFree := some u }
    | none => { video := videoInfo.videoUrl, audio := some videoInfo.music.url, watermarkFree := none }
  else
    { video := videoInfo.videoUrl, audio := some videoInfo.music.url, watermarkFree := none }

/-- Failure envelope for an invalid URL (source lines 67-71). -/
def invalidUrlResult : TikTokDownloadResult :=
  { success := false
    message := "Invalid TikTok URL provided"
    data := none
    error := some "URL format is not recognized as a valid TikTok video URL" }

/-- Failure envelope when no video ID can be extracted (source lines 76-80). -/
def noIdResult : TikTokDownloadResult :=
  { success := false
    message := "Could not extract video ID from URL"
    data := none
    error := some "Video ID extraction failed" }

/-- Failure envelope when the page fetch / extraction yields no data
    (source lines 85-89). -/
def noDataResult : TikTokDownloadResult :=
  { success := false
    message := "Failed to fetch video data"
    data := none
    error := some "Could not retrieve video information from TikTok" }

/-- Success envelope (source lines 94-101). -/
def successResult (videoInfo : TikTokVideoInfo) (urls : DownloadUrls) : TikTokDownloadResult :=
  { success := true
    message := "Video information retrieved successfully"
    data := some { videoInfo := videoInfo, downloadUrls := urls }
    error := none }

/-- Failure envelope produced by the top-level `catch` (source lines
    102-108), carrying the exception's message. -/
def caughtResult (e : String) : TikTokDownloadResult :=
  { success := false
    message := "An error occurred while processing the video"
    data := none
    error := some e }

/-- Body of the `try` block of `downloadVideo` (source lines 64-101):
    normalize, validate, extract the ID, fetch, resolve download URLs.
    The `Except` layer carries a hypothetical exception escaping the body;
    no step of the body actually throws (the fallible steps catch their own
    exceptions internally), which `downloadVideoTry_ok` below proves. -/
def downloadVideoTry (opts : TikTokDownloaderOptions) (env : NetworkEnv) (url : String) :
    Except String TikTokDownloadResult :=
  if !isValidTikTokUrl (cleanTikTokUrl url) then
    Except.ok invalidUrlResult
  else
    match extractVideoId (cleanTikTokUrl url) with
    | none => Except.ok noIdResult
    | some _ =>
      match fetchVideoData env.page (cleanTikTokUrl url) with
      | none => Except.ok noDataResult
      | some videoData =>
        Except.ok (successResult videoData (extractDownloadUrls opts env.mirror videoData))

/-- Embeds `downloadVideo` (source lines 63-109): run the pipeline; any exception
    escaping the `try` block is converted into the generic failure envelope
    carrying the exception's message. -/
def downloadVideo (opts : TikTokDownloaderOptions) (env : NetworkEnv) (url : String) :
    TikTokDownloadResult :=
  match downloadVideoTry opts env url with
  | Except.ok r => r
  | Except.error e => caughtResult e

/-- A required scheme prefix: exactly `http://` or `https://`
    (`https?:\/\/`, anchored). -/
def SchemeP (s : List Char) : Prop := s = "http://".data ∨ s = "https://".data

/-- An optional scheme prefix: empty, or a scheme.  This is the
    `(?:https?:\/\/)?` of `cleanTikTokUrl`, and also the spec's reading of
    validation ("scheme optional"). -/
def OptSchemeP (s : List Char) : Prop := s = [] ∨ SchemeP s

/-- An optional `www.` prefix (`(?:www\.)?`). -/
def OptWwwP (w : List Char) : Prop := w = [] ∨ w = "www.".data

/-- A handle segment: non-empty, no `/` (`[^/]+`). -/
def HandleP (h : List Char) : Prop := h ≠ [] ∧ ∀ c ∈ h, c ≠ '/'

/-- A digit run: non-empty, all `[0-9]` (`\d+`). -/
def DigitsP (d : List Char) : Prop := d ≠ [] ∧ ∀ c ∈ d, c.isDigit = true

/-- Declarative canonical shape
    `<scheme><www?>tiktok.com/@<handle>/video/<digits><rest>`, with the
    scheme constrained by `S`. -/
def CanonShape (S : List Char → Prop) (l : List Char) : Prop :=
  ∃ s w h d r, S s ∧ OptWwwP w ∧ HandleP h ∧ DigitsP d ∧
    l = s ++ w ++ "tiktok.com/@".data ++ h ++ "/video/".data ++ d ++ r

/-- Declarative host-anchored shape `<scheme><host><one char of p><rest>`
    shared by the `vm`, `vt` and mobile `/v/` validation patterns. -/
def HostShape (S : List Char → Prop) (host : List Char) (p : Char → Bool) (l : List Char) : Prop :=
  ∃ s c r, S s ∧ p c = true ∧ l = s ++ host ++ c :: r

/-- The four *code* validation shapes: scheme required in each. -/
def ValidShape (l : List Char) : Prop :=
  CanonShape SchemeP l
    ∨ HostShape SchemeP "vm.tiktok.com/".data isAlnumChar l
    ∨ HostShape SchemeP "vt.tiktok.com/".data isAlnumChar l
    ∨ HostShape SchemeP "m.tiktok.com/v/".data Char.isDigit l

/-- The four shapes as the *spec* words them ("scheme optional, `www.`
    optional where applicable") — the refinement comparison for the
    validation claim. -/
def SpecValidShape (l : List Char) : Prop :=
  CanonShape OptSchemeP l
    ∨ HostShape OptSchemeP "vm.tiktok.com/".data isAlnumChar l
    ∨ HostShape OptSchemeP "vt.tiktok.com/".data isAlnumChar l
    ∨ HostShape OptSchemeP "m.tiktok.com/v/".data Char.isDigit l

/-- A complete match of the unanchored `cleanTikTokUrl` pattern: the whole
    of `m` is scheme? + www? + `tiktok.com/@` + handle + `/video/` + digits. -/
def CanonExact (m : List Char) : Prop :=
  ∃ s w h d, OptSchemeP s ∧ OptWwwP w ∧ HandleP h ∧ DigitsP d ∧
    m = s ++ w ++ "tiktok.com/@".data ++ h ++ "/video/".data ++ d

/-- The string contains some substring fully matching the canonical
    pattern of `cleanTikTokUrl`. -/
def ContainsCanon (l : List Char) : Prop :=
  ∃ pre m post, l = pre ++ m ++ post ∧ CanonExact m

/-- Occurrence of `<pat>` immediately followed by at least one digit —
    exactly when the unanchored regex `<pat>(\d+)` matches. -/
def PatOccurs (pat l : List Char) : Prop :=
  ∃ pre c post, c.isDigit = true ∧ l = pre ++ pat ++ c :: post

/-- Options as produced by the constructor with no overrides
    (source lines 40-48). -/
def defaultOptions : TikTokDownloaderOptions :=
  { includeWatermark := false
    quality := Quality.high
    timeout := 30000
    userAgent := "Mozilla/5.0 (Windows NT 10.0; Win64; x64) AppleWebKit/537.36 (KHTML, like Gecko) Chrome/91.0.4472.124 Safari/537.36" }

/-- Options with `includeWatermark` switched on. -/
def watermarkOptions : TikTokDownloaderOptions :=
  { defaultOptions with includeWatermark := true }

/-- A concrete well-formed `itemStruct` fixture (with `stats.diggCount = 42`,
    absent `playCount`/`shareCount`/`desc`). -/
def fixtureItem : ItemStruct :=
  { id := "111222333"
    desc := none
    createTime := 1700000000
    stats := { playCount := none, diggCount := some 42, commentCount := some 7,
               shareCount := none }
    music := { id := "m1", title := "song", authorName := "artist", duration := 30,
               playUrl := "https://cdn.example/audio.mp3" }
    video := { duration := 12, playAddr := "https://cdn.example/video.mp4",
               cover := "https://cdn.example/cover.jpg", dynamicCover := none } }

/-- Oracles where the page always yields the fixture and the mirror API
    returns a body without a `video.noWatermark` field. -/
def fixtureEnv : NetworkEnv :=
  { page := fun _ => PageOutcome.ok fixtureItem
    mirror := fun _ => MirrorOutcome.noVideoField }

/-- Oracles where the page fetch fails (missing script tag) and the mirror
    request dies on the network. -/
def failingEnv : NetworkEnv :=
  { page := fun _ => PageOutcome.noScriptTag
    mirror := fun _ => MirrorOutcome.netError "ECONNREFUSED" }

/-! ### Basic lemmas about the scanner primitives -/

theorem dropLit_self_append (p r : List Char) : dropLit p (p ++ r) = some r := by
  induction p with
  | nil => rfl
  | cons c cs ih => simp [dropLit, ih]

theorem dropLit_eq_some {p l r : List Char} (h : dropLit p l = some r) : l = p ++ r := by
  induction p generalizing l with
  | nil => simpa [dropLit] using h
  | cons c cs ih =>
    cases l with
    | nil => simp [dropLit] at h
    | cons b bs =>
      by_cases hb : b = c
      · subst hb
        simp only [dropLit, if_pos rfl] at h
        simpa using ih h
      · simp [dropLit, hb] at h

theorem dropLit_head_ne {a b : Char} (p l : List Char) (h : b ≠ a) :
    dropLit (a :: p) (b :: l) = none := by
  simp [dropLit, h]

theorem take_len_append (a b : List Char) : (a ++ b).take a.length = a := by
  induction a with
  | nil => rfl
  | cons c cs ih => simp [ih]

theorem mem_takeWhile {p : Char → Bool} {l : List Char} {c : Char}
    (h : c ∈ l.takeWhile p) : p c = true := by
  induction l with
  | nil => simp [List.takeWhile] at h
  | cons a t ih =>
    by_cases ha : p a
    · rw [List.takeWhile_cons_of_pos ha] at h
      rcases List.mem_cons.mp h with h1 | h2
      · exact h1 ▸ ha
      · exact ih h2
    · rw [List.takeWhile_cons_of_neg ha] at h
      simp at h

theorem dropWhile_head_not {p : Char → Bool} {l r : List Char} {c : Char}
    (h : l.dropWhile p = c :: r) : p c = false := by
  induction l with
  | nil => simp [List.dropWhile] at h
  | cons a t ih =>
    by_cases ha : p a
    · rw [List.dropWhile_cons_of_pos ha] at h
      exact ih h
    · rw [List.dropWhile_cons_of_neg ha] at h
      cases h
      exact Bool.of_not_eq_true ha

theorem dropWhile_append_stop {p : Char → Bool} {a : List Char} {b : Char} (t : List Char)
    (ha : ∀ c ∈ a, p c = true) (hb : p b = false) :
    (a ++ b :: t).dropWhile p = b :: t := by
  induction a with
  | nil =>
    rw [List.nil_append, List.dropWhile_cons_of_neg (by simp [hb])]
  | cons x xs ih =>
    have hx : p x = true := ha x (by simp)
    rw [List.cons_append, List.dropWhile_cons_of_pos hx]
    exact ih (fun c hc => ha c (by simp [hc]))

theorem matchPlus_sound {p : Char → Bool} {l d r : List Char}
    (h : matchPlus p l = some (d, r)) :
    l = d ++ r ∧ d ≠ [] ∧ (∀ c ∈ d, p c = true) ∧ ∀ c r', r = c :: r' → p c = false := by
  cases l with
  | nil => simp [matchPlus] at h
  | cons c cs =>
    by_cases hc : p c
    · simp only [matchPlus, if_pos hc, Option.some.injEq, Prod.mk.injEq] at h
      obtain ⟨hd, hr⟩ := h
      subst hd; subst hr
      refine ⟨(List.takeWhile_append_dropWhile ..).symm, ?_, ?_, ?_⟩
      · simp [List.takeWhile_cons_of_pos hc]
      · intro x hx; exact mem_takeWhile hx
      · intro x r' hx; exact dropWhile_head_not hx
    · simp [matchPlus, hc] at h

theorem matchPlus_cons_pos {p : Char → Bool} {c : Char} (t : List Char) (hc : p c = true) :
    matchPlus p (c :: t) = some ((c :: t).takeWhile p, (c :: t).dropWhile p) := by
  simp [matchPlus, hc]

theorem matchPlus_isSome_iff {p : Char → Bool} {l : List Char} :
    (matchPlus p l).isSome = true ↔ ∃ c r, l = c :: r ∧ p c = true := by
  constructor
  · intro h
    cases l with
    | nil => simp [matchPlus] at h
    | cons c cs =>
      by_cases hc : p c
      · exact ⟨c, cs, rfl, hc⟩
      · simp [matchPlus, hc] at h
  · rintro ⟨c, r, rfl, hc⟩
    simp [matchPlus, hc]

theorem containsSub_of_decomp (pat : List Char) :
    ∀ pre post : List Char, containsSub pat (pre ++ pat ++ post) = true := by
  intro pre
  induction pre with
  | nil =>
    intro post
    rw [List.nil_append]
    cases hl : pat ++ post with
    | nil =>
      have hp : pat = [] := by
        cases pat with
        | nil => rfl
        | cons a b => simp at hl
      subst hp
      rfl
    | cons c cs =>
      simp only [containsSub, Bool.or_eq_true]
      left
      rw [← hl, dropLit_self_append]
      rfl
  | cons x xs ih =>
    intro post
    simp only [List.cons_append, containsSub, Bool.or_eq_true]
    right
    have h2 := ih post
    simpa only [List.append_eq, List.append_assoc] using h2

/-! ### Characterization of the scheme and canonical-pattern matchers -/

theorem lit_tiktok_cons : "tiktok.com/@".data = 't' :: "iktok.com/@".data := rfl

theorem lit_video_cons : "/video/".data = '/' :: "video/".data := rfl


theorem dropScheme_scheme_append {s : List Char} (hs : SchemeP s) (r : List Char) :
    dropScheme (s ++ r) = some r := by
  rcases hs with rfl | rfl
  · rfl
  · rfl

theorem dropScheme_some {l r : List Char} (h : dropScheme l = some r) :
    ∃ s, SchemeP s ∧ l = s ++ r := by
  unfold dropScheme at h
  cases h1 : dropLit "https://".data l with
  | some x =>
    rw [h1] at h
    simp only [Option.some.injEq] at h
    subst h
    exact ⟨_, Or.inr rfl, dropLit_eq_some h1⟩
  | none =>
    rw [h1] at h
    exact ⟨_, Or.inl rfl, dropLit_eq_some h⟩

theorem dropScheme_head_ne {c : Char} (t : List Char) (hc : c ≠ 'h') :
    dropScheme (c :: t) = none := by
  unfold dropScheme
  rw [show "https://".data = 'h' :: 't' :: 't' :: 'p' :: 's' :: ':' :: '/' :: '/' :: ([] : List Char) from rfl,
      show "http://".data = 'h' :: 't' :: 't' :: 'p' :: ':' :: '/' :: '/' :: ([] : List Char) from rfl,
      dropLit_head_ne _ _ hc, dropLit_head_ne _ _ hc]

theorem dropSchemeOpt_scheme {s : List Char} (hs : SchemeP s) (r : List Char) :
    dropSchemeOpt (s ++ r) = r := by
  rcases hs with rfl | rfl
  · rfl
  · rfl

theorem dropSchemeOpt_of_none {l : List Char} (h : dropScheme l = none) :
    dropSchemeOpt l = l := by
  unfold dropSchemeOpt
  rw [h]

theorem dropSchemeOpt_decomp (l : List Char) :
    ∃ s, OptSchemeP s ∧ l = s ++ dropSchemeOpt l := by
  cases h : dropScheme l with
  | some r =>
    obtain ⟨s, hs, hl⟩ := dropScheme_some h
    have he : dropSchemeOpt l = r := by unfold dropSchemeOpt; rw [h]
    exact ⟨s, Or.inr hs, by rw [he]; exact hl⟩
  | none =>
    refine ⟨[], Or.inl rfl, ?_⟩
    rw [List.nil_append, dropSchemeOpt_of_none h]

theorem dropWwwOpt_www (r : List Char) : dropWwwOpt ("www.".data ++ r) = r := rfl

theorem dropWwwOpt_head_ne {c : Char} (t : List Char) (hc : c ≠ 'w') :
    dropWwwOpt (c :: t) = c :: t := by
  unfold dropWwwOpt
  rw [show "www.".data = 'w' :: 'w' :: 'w' :: '.' :: ([] : List Char) from rfl, dropLit_head_ne _ _ hc]

theorem dropWwwOpt_decomp (l : List Char) :
    ∃ w, OptWwwP w ∧ l = w ++ dropWwwOpt l := by
  cases h : dropLit "www.".data l with
  | some r =>
    refine ⟨"www.".data, Or.inr rfl, ?_⟩
    rw [dropLit_eq_some h, dropWwwOpt_www]
  | none =>
    refine ⟨[], Or.inl rfl, ?_⟩
    rw [List.nil_append]
    unfold dropWwwOpt
    rw [h]

theorem canonAfterScheme_some {l r : List Char} (h : canonAfterScheme l = some r) :
    ∃ w hs d, OptWwwP w ∧ HandleP hs ∧ DigitsP d ∧
      l = w ++ "tiktok.com/@".data ++ hs ++ "/video/".data ++ d ++ r := by
  unfold canonAfterScheme at h
  cases h0 : dropLit "tiktok.com/@".data (dropWwwOpt l) with
  | none => simp only [h0] at h; exact Option.noConfusion h
  | some l1 =>
    simp only [h0] at h
    cases h1 : matchPlus (fun c => c != '/') l1 with
    | none => simp only [h1] at h; exact Option.noConfusion h
    | some pr =>
      obtain ⟨hseg, l2⟩ := pr
      simp only [h1] at h
      cases h2 : dropLit "/video/".data l2 with
      | none => simp only [h2] at h; exact Option.noConfusion h
      | some l3 =>
        simp only [h2] at h
        cases h3 : matchPlus Char.isDigit l3 with
        | none => simp only [h3] at h; exact Option.noConfusion h
        | some pr2 =>
          obtain ⟨d, l4⟩ := pr2
          simp only [h3, Option.some.injEq] at h
          subst h
          obtain ⟨w, hw, hlw⟩ := dropWwwOpt_decomp l
          obtain ⟨e1, hne1, hall1, _⟩ := matchPlus_sound h1
          obtain ⟨e3, hne3, hall3, _⟩ := matchPlus_sound h3
          refine ⟨w, hseg, d, hw, ⟨hne1, ?_⟩, ⟨hne3, hall3⟩, ?_⟩
          · intro c hc
            have := hall1 c hc
            simpa using this
          · rw [hlw, dropLit_eq_some h0, e1, dropLit_eq_some h2, e3]
            simp [List.append_assoc]

theorem matchPlus_cons_pos2 (p : Char → Bool) (c : Char) (t : List Char) (hc : p c = true) :
    matchPlus p (c :: t) = some ((c :: t).takeWhile p, (c :: t).dropWhile p) := by
  simp [matchPlus, hc]

theorem canonAfterScheme_build {w hs d : List Char} (post : List Char)
    (hw : OptWwwP w) (hh : HandleP hs) (hd : DigitsP d) :
    ∃ r, canonAfterScheme
      (w ++ "tiktok.com/@".data ++ hs ++ "/video/".data ++ d ++ post) = some r := by
  obtain ⟨hne, hnsl⟩ := hh
  obtain ⟨dne, dall⟩ := hd
  obtain ⟨hc, ht, rfl⟩ : ∃ c t, hs = c :: t := by
    cases hs with
    | nil => exact absurd rfl hne
    | cons c t => exact ⟨c, t, rfl⟩
  obtain ⟨dc, dt, rfl⟩ : ∃ c t, d = c :: t := by
    cases d with
    | nil => exact absurd rfl dne
    | cons c t => exact ⟨c, t, rfl⟩
  have hwww : dropWwwOpt (w ++ "tiktok.com/@".data ++ (hc :: ht) ++ "/video/".data
      ++ (dc :: dt) ++ post)
      = "tiktok.com/@".data ++ ((hc :: ht) ++ ("/video/".data ++ ((dc :: dt) ++ post))) := by
    rcases hw with rfl | rfl
    · rw [List.nil_append, List.append_assoc, List.append_assoc, List.append_assoc]
      rw [show "tiktok.com/@".data ++ ((hc :: ht) ++ ("/video/".data ++ ((dc :: dt) ++ post)))
          = 't' :: ("iktok.com/@".data ++ ((hc :: ht) ++ ("/video/".data ++ ((dc :: dt) ++ post))))
          from rfl]
      rw [dropWwwOpt_head_ne _ (by decide)]
    · rw [List.append_assoc, List.append_assoc, List.append_assoc, List.append_assoc,
        dropWwwOpt_www]
  have hcpos : (hc != '/') = true := bne_iff_ne.mpr (hnsl hc (by simp))
  have hdropw : ((hc :: ht) ++ ('/' :: ("video/".data ++ ((dc :: dt) ++ post)))).dropWhile
      (fun c => c != '/')
      = '/' :: ("video/".data ++ ((dc :: dt) ++ post)) :=
    dropWhile_append_stop _ (fun c hcmem => bne_iff_ne.mpr (hnsl c hcmem)) (by simp)
  have hplus : matchPlus (fun c => c != '/')
      ((hc :: ht) ++ ('/' :: ("video/".data ++ ((dc :: dt) ++ post))))
      = some ((((hc :: ht) ++ ('/' :: ("video/".data ++ ((dc :: dt) ++ post)))).takeWhile
          (fun c => c != '/')),
        '/' :: ("video/".data ++ ((dc :: dt) ++ post))) := by
    rw [List.cons_append]
    rw [matchPlus_cons_pos2 (fun c => c != '/') hc
      (ht ++ '/' :: ("video/".data ++ ((dc :: dt) ++ post))) hcpos]
    rw [← List.cons_append, hdropw]
  have hdig : matchPlus Char.isDigit ((dc :: dt) ++ post)
      = some (((dc :: dt) ++ post).takeWhile Char.isDigit,
        ((dc :: dt) ++ post).dropWhile Char.isDigit) := by
    rw [List.cons_append]
    exact matchPlus_cons_pos2 _ _ _ (dall dc (by simp))
  refine ⟨((dc :: dt) ++ post).dropWhile Char.isDigit, ?_⟩
  unfold canonAfterScheme
  rw [hwww, dropLit_self_append]
  have hsplit : (hc :: ht) ++ ("/video/".data ++ ((dc :: dt) ++ post))
      = (hc :: ht) ++ ('/' :: ("video/".data ++ ((dc :: dt) ++ post))) := by
    rw [lit_video_cons]
    rfl
  rw [hsplit]
  simp only [hplus]
  have hvid : dropLit "/video/".data ('/' :: ("video/".data ++ ((dc :: dt) ++ post)))
      = some ((dc :: dt) ++ post) := by
    rw [show ('/' :: ("video/".data ++ ((dc :: dt) ++ post)))
        = "/video/".data ++ ((dc :: dt) ++ post) from rfl]
    rw [dropLit_self_append]
  simp only [hvid, hdig]

theorem canonOptRest_some {l r : List Char} (h : canonOptRest l = some r) :
    ∃ s w hs d, OptSchemeP s ∧ OptWwwP w ∧ HandleP hs ∧ DigitsP d ∧
      l = s ++ w ++ "tiktok.com/@".data ++ hs ++ "/video/".data ++ d ++ r := by
  unfold canonOptRest at h
  obtain ⟨s, hos, hls⟩ := dropSchemeOpt_decomp l
  obtain ⟨w, hseg, d, hww, hhp, hdp, heq⟩ := canonAfterScheme_some h
  exact ⟨s, w, hseg, d, hos, hww, hhp, hdp, by rw [hls, heq]; simp [List.append_assoc]⟩

theorem canonOptRest_build {s w hs d : List Char} (post : List Char) (ho : OptSchemeP s)
    (hw : OptWwwP w) (hh : HandleP hs) (hd : DigitsP d) :
    ∃ r, canonOptRest
      (s ++ w ++ "tiktok.com/@".data ++ hs ++ "/video/".data ++ d ++ post) = some r := by
  have hbody := canonAfterScheme_build post hw hh hd
  have hso : dropSchemeOpt (s ++ w ++ "tiktok.com/@".data ++ hs ++ "/video/".data ++ d ++ post)
      = w ++ "tiktok.com/@".data ++ hs ++ "/video/".data ++ d ++ post := by
    rcases ho with rfl | hsch
    · rw [List.nil_append]
      apply dropSchemeOpt_of_none
      rcases hw with rfl | rfl
      · rw [List.nil_append]
        rw [show "tiktok.com/@".data ++ hs ++ "/video/".data ++ d ++ post
            = 't' :: ("iktok.com/@".data ++ hs ++ "/video/".data ++ d ++ post) by
          rw [lit_tiktok_cons]; simp [List.append_assoc]]
        exact dropScheme_head_ne _ (by decide)
      · rw [show "www.".data ++ "tiktok.com/@".data ++ hs ++ "/video/".data ++ d ++ post
            = 'w' :: ("ww.".data ++ "tiktok.com/@".data ++ hs ++ "/video/".data ++ d ++ post) by
          rw [show "www.".data = 'w' :: "ww.".data from rfl]; simp [List.append_assoc]]
        exact dropScheme_head_ne _ (by decide)
    · rw [show s ++ w ++ "tiktok.com/@".data ++ hs ++ "/video/".data ++ d ++ post
          = s ++ (w ++ "tiktok.com/@".data ++ hs ++ "/video/".data ++ d ++ post) by
        simp [List.append_assoc]]
      exact dropSchemeOpt_scheme hsch _
  unfold canonOptRest
  rw [hso]
  exact hbody

theorem findCanonMatch_some : ∀ {l m : List Char}, findCanonMatch l = some m →
    CanonExact m ∧ ∃ pre post, l = pre ++ m ++ post := by
  intro l
  induction l with
  | nil => intro m h; exact Option.noConfusion h
  | cons x t ih =>
    intro m h
    unfold findCanonMatch at h
    cases h0 : canonOptRest (x :: t) with
    | some r =>
      simp only [h0, Option.some.injEq] at h
      obtain ⟨s, w, hs, d, hos, hww, hhp, hdp, heq⟩ := canonOptRest_some h0
      have hbody : x :: t
          = (s ++ w ++ "tiktok.com/@".data ++ hs ++ "/video/".data ++ d) ++ r := by
        rw [heq]
      have hm : m = s ++ w ++ "tiktok.com/@".data ++ hs ++ "/video/".data ++ d := by
        rw [← h]
        rw [hbody, List.length_append, Nat.add_sub_cancel, take_len_append]
      refine ⟨⟨s, w, hs, d, hos, hww, hhp, hdp, hm⟩, [], r, ?_⟩
      rw [List.nil_append, hm]
      exact hbody
    | none =>
      simp only [h0] at h
      obtain ⟨hex, pre, post, heq⟩ := ih h
      exact ⟨hex, x :: pre, post, by rw [heq]; simp [List.append_assoc]⟩

theorem findCanonMatch_build : ∀ (pre rest : List Char),
    (∃ r, canonOptRest rest = some r) →
    ∃ m, findCanonMatch (pre ++ rest) = some m := by
  intro pre
  induction pre with
  | nil =>
    intro rest hrest
    obtain ⟨r, hr⟩ := hrest
    rw [List.nil_append]
    cases rest with
    | nil =>
      exfalso
      have : canonOptRest [] = none := rfl
      rw [this] at hr
      exact Option.noConfusion hr
    | cons c t =>
      refine ⟨(c :: t).take ((c :: t).length - r.length), ?_⟩
      unfold findCanonMatch
      simp only [hr]
  | cons x xs ih =>
    intro rest hrest
    rw [List.cons_append]
    cases h0 : canonOptRest (x :: (xs ++ rest)) with
    | some r =>
      refine ⟨(x :: (xs ++ rest)).take ((x :: (xs ++ rest)).length - r.length), ?_⟩
      unfold findCanonMatch
      simp only [h0]
    | none =>
      obtain ⟨m, hm⟩ := ih rest hrest
      refine ⟨m, ?_⟩
      unfold findCanonMatch
      simp only [h0]
      exact hm

theorem testHost_iff {host : List Char} {p : Char → Bool} {l : List Char} :
    testHost host p l = true ↔ HostShape SchemeP host p l := by
  constructor
  · intro h
    unfold testHost at h
    cases h0 : dropScheme l with
    | none => simp only [h0] at h; exact Bool.noConfusion h
    | some l1 =>
      simp only [h0] at h
      cases h1 : dropLit host l1 with
      | none => simp only [h1] at h; exact Bool.noConfusion h
      | some l2 =>
        simp only [h1] at h
        obtain ⟨c, r, hl2, hc⟩ := matchPlus_isSome_iff.mp h
        obtain ⟨s, hsch, hls⟩ := dropScheme_some h0
        exact ⟨s, c, r, hsch, hc,
          by rw [hls, dropLit_eq_some h1, hl2, List.append_assoc]⟩
  · rintro ⟨s, c, r, hsch, hc, rfl⟩
    unfold testHost
    rw [show s ++ host ++ c :: r = s ++ (host ++ c :: r) by simp [List.append_assoc]]
    simp only [dropScheme_scheme_append hsch, dropLit_self_append]
    exact matchPlus_isSome_iff.mpr ⟨c, r, rfl, hc⟩

theorem testCanonical_iff {l : List Char} :
    testCanonical l = true ↔ CanonShape SchemeP l := by
  constructor
  · intro h
    unfold testCanonical at h
    cases h0 : dropScheme l with
    | none => simp only [h0] at h; exact Bool.noConfusion h
    | some l1 =>
      simp only [h0] at h
      cases h1 : canonAfterScheme l1 with
      | none => rw [h1] at h; exact Bool.noConfusion h
      | some r =>
        obtain ⟨w, hs, d, hww, hhp, hdp, heq⟩ := canonAfterScheme_some h1
        obtain ⟨s, hsch, hls⟩ := dropScheme_some h0
        exact ⟨s, w, hs, d, r, hsch, hww, hhp, hdp,
          by rw [hls, heq]; simp [List.append_assoc]⟩
  · rintro ⟨s, w, hs, d, r, hsch, hww, hhp, hdp, rfl⟩
    unfold testCanonical
    rw [show s ++ w ++ "tiktok.com/@".data ++ hs ++ "/video/".data ++ d ++ r
        = s ++ (w ++ "tiktok.com/@".data ++ hs ++ "/video/".data ++ d ++ r) by
      simp [List.append_assoc]]
    obtain ⟨r2, hr2⟩ := canonAfterScheme_build r hww hhp hdp
    simp only [dropScheme_scheme_append hsch, hr2, Option.isSome_some]

theorem findLitThenDigits_some {pat : List Char} : ∀ {l d : List Char},
    findLitThenDigits pat l = some d →
    DigitsP d ∧ ∃ pre post, l = pre ++ pat ++ d ++ post := by
  intro l
  induction l with
  | nil => intro d h; exact Option.noConfusion h
  | cons x t ih =>
    intro d h
    unfold findLitThenDigits at h
    cases h0 : dropLit pat (x :: t) with
    | some rest =>
      simp only [h0] at h
      cases h1 : matchPlus Char.isDigit rest with
      | some pr =>
        obtain ⟨d2, r2⟩ := pr
        simp only [h1, Option.some.injEq] at h
        subst h
        obtain ⟨hsplit, hne, hall, _⟩ := matchPlus_sound h1
        refine ⟨⟨hne, hall⟩, [], r2, ?_⟩
        rw [List.nil_append, dropLit_eq_some h0, hsplit]
        simp [List.append_assoc]
      | none =>
        simp only [h1] at h
        obtain ⟨hd, pre, post, heq⟩ := ih h
        exact ⟨hd, x :: pre, post, by rw [heq]; simp [List.append_assoc]⟩
    | none =>
      simp only [h0] at h
      obtain ⟨hd, pre, post, heq⟩ := ih h
      exact ⟨hd, x :: pre, post, by rw [heq]; simp [List.append_assoc]⟩

theorem findLitThenDigits_build {pat : List Char} (hpat : pat ≠ []) :
    ∀ (pre : List Char) {c : Char} (post : List Char), c.isDigit = true →
    ∃ d, findLitThenDigits pat (pre ++ pat ++ c :: post) = some d := by
  intro pre
  induction pre with
  | nil =>
    intro c post hc
    rw [List.nil_append]
    obtain ⟨p0, pt, rfl⟩ : ∃ p0 pt, pat = p0 :: pt := by
      cases pat with
      | nil => exact absurd rfl hpat
      | cons p0 pt => exact ⟨p0, pt, rfl⟩
    rw [List.cons_append]
    unfold findLitThenDigits
    rw [← List.cons_append, dropLit_self_append]
    have hmp := matchPlus_cons_pos2 Char.isDigit c post hc
    refine ⟨(c :: post).takeWhile Char.isDigit, ?_⟩
    simp only [hmp]
  | cons x xs ih =>
    intro c post hc
    rw [show (x :: xs) ++ pat ++ c :: post = x :: ((xs ++ pat) ++ c :: post) by
      simp [List.append_assoc]]
    obtain ⟨d, hd⟩ := ih post hc
    unfold findLitThenDigits
    cases h0 : dropLit pat (x :: ((xs ++ pat) ++ c :: post)) with
    | some rest =>
      cases h1 : matchPlus Char.isDigit rest with
      | some pr =>
        obtain ⟨d2, r2⟩ := pr
        exact ⟨d2, by simp only [h0, h1]⟩
      | none =>
        refine ⟨d, ?_⟩
        simp only [h0, h1]
        exact hd
    | none =>
      refine ⟨d, ?_⟩
      simp only [h0]
      exact hd

theorem findLitThenDigits_none_iff {pat : List Char} (hpat : pat ≠ []) {l : List Char} :
    findLitThenDigits pat l = none ↔ ¬ PatOccurs pat l := by
  constructor
  · intro h hocc
    obtain ⟨pre, c, post, hc, heq⟩ := hocc
    obtain ⟨d, hd⟩ := findLitThenDigits_build hpat pre post hc
    rw [← heq] at hd
    rw [h] at hd
    exact Option.noConfusion hd
  · intro h
    cases hf : findLitThenDigits pat l with
    | none => rfl
    | some d =>
      exfalso
      obtain ⟨⟨hne, hall⟩, pre, post, heq⟩ := findLitThenDigits_some hf
      obtain ⟨c, dt, rfl⟩ : ∃ c t, d = c :: t := by
        cases d with
        | nil => exact absurd rfl hne
        | cons c t => exact ⟨c, t, rfl⟩
      exact h ⟨pre, c, dt ++ post, hall c (by simp),
        by rw [heq]; simp [List.append_assoc]⟩

/-! ### Scenario lemmas for the downloadVideo pipeline -/

theorem downloadVideo_invalid {opts : TikTokDownloaderOptions} {env : NetworkEnv} {url : String}
    (h : isValidTikTokUrl (cleanTikTokUrl url) = false) :
    downloadVideoTry opts env url = Except.ok invalidUrlResult ∧
      downloadVideo opts env url = invalidUrlResult := by
  have ht : downloadVideoTry opts env url = Except.ok invalidUrlResult := by
    unfold downloadVideoTry
    rw [h]
    rfl
  exact ⟨ht, by unfold downloadVideo; rw [ht]⟩

theorem downloadVideo_noId {opts : TikTokDownloaderOptions} {env : NetworkEnv} {url : String}
    (h : isValidTikTokUrl (cleanTikTokUrl url) = true)
    (hid : extractVideoId (cleanTikTokUrl url) = none) :
    downloadVideoTry opts env url = Except.ok noIdResult ∧
      downloadVideo opts env url = noIdResult := by
  have ht : downloadVideoTry opts env url = Except.ok noIdResult := by
    unfold downloadVideoTry
    rw [h]
    simp only [Bool.not_true, Bool.false_eq_true, if_false, hid]
  exact ⟨ht, by unfold downloadVideo; rw [ht]⟩

theorem downloadVideo_noData {opts : TikTokDownloaderOptions} {env : NetworkEnv} {url : String}
    {vid : String} (h : isValidTikTokUrl (cleanTikTokUrl url) = true)
    (hid : extractVideoId (cleanTikTokUrl url) = some vid)
    (hf : fetchVideoData env.page (cleanTikTokUrl url) = none) :
    downloadVideoTry opts env url = Except.ok noDataResult ∧
      downloadVideo opts env url = noDataResult := by
  have ht : downloadVideoTry opts env url = Except.ok noDataResult := by
    unfold downloadVideoTry
    rw [h]
    simp only [Bool.not_true, Bool.false_eq_true, if_false, hid, hf]
  exact ⟨ht, by unfold downloadVideo; rw [ht]⟩

theorem downloadVideo_success {opts : TikTokDownloaderOptions} {env : NetworkEnv} {url : String}
    {vid : String} {videoData : TikTokVideoInfo}
    (h : isValidTikTokUrl (cleanTikTokUrl url) = true)
    (hid : extractVideoId (cleanTikTokUrl url) = some vid)
    (hf : fetchVideoData env.page (cleanTikTokUrl url) = some videoData) :
    downloadVideoTry opts env url
        = Except.ok (successResult videoData (extractDownloadUrls opts env.mirror videoData)) ∧
      downloadVideo opts env url
        = successResult videoData (extractDownloadUrls opts env.mirror videoData) := by
  have ht : downloadVideoTry opts env url
      = Except.ok (successResult videoData (extractDownloadUrls opts env.mirror videoData)) := by
    unfold downloadVideoTry
    rw [h]
    simp only [Bool.not_true, Bool.false_eq_true, if_false, hid, hf]
  exact ⟨ht, by unfold downloadVideo; rw [ht]⟩

/-! ### Behavior of cleanTikTokUrl -/

theorem cleanTikTokUrl_shortlink {url : String}
    (h : (containsSub "vm.tiktok.com".data (trimChars url.data)
      || containsSub "vt.tiktok.com".data (trimChars url.data)) = true) :
    cleanTikTokUrl url = ⟨trimChars url.data⟩ := by
  unfold cleanTikTokUrl
  rw [if_pos h]

theorem cleanTikTokUrl_match {url m : String}
    (h : (containsSub "vm.tiktok.com".data (trimChars url.data)
      || containsSub "vt.tiktok.com".data (trimChars url.data)) = false)
    (hm : findCanonMatch (trimChars url.data) = some m.data) :
    cleanTikTokUrl url = m := by
  unfold cleanTikTokUrl
  rw [if_neg (by simp [h]), hm]

theorem cleanTikTokUrl_nomatch {url : String}
    (h : (containsSub "vm.tiktok.com".data (trimChars url.data)
      || containsSub "vt.tiktok.com".data (trimChars url.data)) = false)
    (hm : findCanonMatch (trimChars url.data) = none) :
    cleanTikTokUrl url = ⟨trimChars url.data⟩ := by
  unfold cleanTikTokUrl
  rw [if_neg (by simp [h]), hm]

/-! ### Behavior of extractVideoId -/

theorem extractVideoId_first {u : String} {d : List Char}
    (h : findLitThenDigits "/video/".data u.data = some d) :
    extractVideoId u = some ⟨d⟩ := by
  unfold extractVideoId
  simp only [h]

theorem extractVideoId_second {u : String} {d : List Char}
    (h1 : findLitThenDigits "/video/".data u.data = none)
    (h : findLitThenDigits "/v/".data u.data = some d) :
    extractVideoId u = some ⟨d⟩ := by
  unfold extractVideoId
  simp only [h1, h]

theorem extractVideoId_third {u : String} {d : List Char}
    (h1 : findLitThenDigits "/video/".data u.data = none)
    (h2 : findLitThenDigits "/v/".data u.data = none)
    (h : findLitThenDigits "video_id=".data u.data = some d) :
    extractVideoId u = some ⟨d⟩ := by
  unfold extractVideoId
  simp only [h1, h2, h]

theorem extractVideoId_none_iff {u : String} :
    extractVideoId u = none ↔
      findLitThenDigits "/video/".data u.data = none ∧
      findLitThenDigits "/v/".data u.data = none ∧
      findLitThenDigits "video_id=".data u.data = none := by
  constructor
  · intro h
    unfold extractVideoId at h
    cases h1 : findLitThenDigits "/video/".data u.data with
    | some d => simp only [h1] at h; exact Option.noConfusion h
    | none =>
      simp only [h1] at h
      cases h2 : findLitThenDigits "/v/".data u.data with
      | some d => simp only [h2] at h; exact Option.noConfusion h
      | none =>
        simp only [h2] at h
        cases h3 : findLitThenDigits "video_id=".data u.data with
        | some d => simp only [h3] at h; exact Option.noConfusion h
        | none => exact ⟨rfl, rfl, rfl⟩
  · rintro ⟨h1, h2, h3⟩
    unfold extractVideoId
    simp only [h1, h2, h3]

/-! ### Claim theorems -/

/-- Claim C1, counterexample: the claim states that `isValidTikTokUrl u` is
    true iff `u` matches one of the four documented shapes *with the URL
    scheme optional*.  The string "tiktok.com/@user/video/123" matches the
    scheme-less canonical shape, yet the validator rejects it — all four
    validation regexes are anchored `^https?:\/\/...`, scheme required. -/
theorem claim1_counterexample :
    ¬ (isValidTikTokUrl "tiktok.com/@user/video/123" = true
      ↔ SpecValidShape "tiktok.com/@user/video/123".data) := by
  intro h
  have hspec : SpecValidShape "tiktok.com/@user/video/123".data :=
    Or.inl ⟨[], [], "user".data, "123".data, [], Or.inl rfl, Or.inl rfl,
      ⟨by decide, by decide⟩, ⟨by decide, by decide⟩, by decide⟩
  have hcode := h.mpr hspec
  exact absurd hcode (by decide)

/-- Claim C1 (amended): for every string `u`, `isValidTikTokUrl u` returns
    true iff `u` matches one of the four documented shapes anchored at the
    start of the string — canonical handle+video-id form, vm short-link
    form, vt short-link form, or mobile `/v/<digits>` form — with the URL
    scheme (`http://` or `https://`) REQUIRED in every shape and `www.`
    optional in the canonical shape; every other string is rejected. -/
theorem claim1_valid_iff_shapes (u : String) :
    isValidTikTokUrl u = true ↔ ValidShape u.data := by
  unfold isValidTikTokUrl ValidShape testVm testVt testMobile
  simp only [Bool.or_eq_true]
  rw [testCanonical_iff, testHost_iff, testHost_iff, testHost_iff]
  tauto

/-- Claim C1 witness: the amended theorem applied at a concrete accepted
    URL and a concrete rejected one. -/
theorem claim1_witness :
    isValidTikTokUrl "https://www.tiktok.com/@user/video/123" = true ∧
    isValidTikTokUrl "tiktok.com/@user/video/123" = false := by
  constructor
  · exact (claim1_valid_iff_shapes "https://www.tiktok.com/@user/video/123").mpr
      (Or.inl ⟨"https://".data, "www.".data, "user".data, "123".data, [],
        Or.inr rfl, Or.inr rfl, ⟨by decide, by decide⟩, ⟨by decide, by decide⟩, by decide⟩)
  · decide

/-- Claim C2: for every input URL string and any behavior of the two
    network oracles, the body of `downloadVideo`'s `try` block raises no
    exception (`downloadVideoTry` is `Except.ok`), and the resolved value
    of `downloadVideo` is that body's `TikTokDownloadResult` envelope: the
    operation never throws past the public boundary.  (The `catch` branch
    converting a hypothetical exception message `e` into the generic
    failure envelope is `caughtResult e` in the definition of
    `downloadVideo`.) -/
theorem claim2_never_throws (opts : TikTokDownloaderOptions) (env : NetworkEnv) (url : String) :
    ∃ r : TikTokDownloadResult,
      downloadVideoTry opts env url = Except.ok r ∧ downloadVideo opts env url = r := by
  cases hv : isValidTikTokUrl (cleanTikTokUrl url) with
  | false =>
    obtain ⟨h1, h2⟩ := @downloadVideo_invalid opts env url hv
    exact ⟨_, h1, h2⟩
  | true =>
    cases hid : extractVideoId (cleanTikTokUrl url) with
    | none =>
      obtain ⟨h1, h2⟩ := @downloadVideo_noId opts env url hv hid
      exact ⟨_, h1, h2⟩
    | some vid =>
      cases hf : fetchVideoData env.page (cleanTikTokUrl url) with
      | none =>
        obtain ⟨h1, h2⟩ := @downloadVideo_noData opts env url vid hv hid hf
        exact ⟨_, h1, h2⟩
      | some vd =>
        obtain ⟨h1, h2⟩ := @downloadVideo_success opts env url vid vd hv hid hf
        exact ⟨_, h1, h2⟩

/-- Claim C2 witness: the theorem applied at a concrete URL and oracle set. -/
theorem claim2_witness :
    ∃ r : TikTokDownloadResult,
      downloadVideoTry defaultOptions fixtureEnv "https://www.tiktok.com/@demo/video/111222333"
          = Except.ok r ∧
        downloadVideo defaultOptions fixtureEnv "https://www.tiktok.com/@demo/video/111222333"
          = r :=
  claim2_never_throws defaultOptions fixtureEnv "https://www.tiktok.com/@demo/video/111222333"

/-- Claim C3: `downloadVideo` runs normalize → validate → extract ID →
    fetch → resolve with three fail-fast points.  If validation of the
    normalized URL fails, the result is the "Invalid TikTok URL provided"
    envelope, independent of the network oracles (nothing is extracted or
    fetched); if ID extraction returns `none`, the result is the
    "Could not extract video ID from URL" envelope, again independent of
    the network oracles; if the fetch/extraction step yields no data, the
    result is the "Failed to fetch video data" envelope; otherwise the
    result is the success envelope built from the fetched data and the
    resolved download URLs. -/
theorem claim3_pipeline_order (opts : TikTokDownloaderOptions) (env : NetworkEnv) (url : String) :
    (isValidTikTokUrl (cleanTikTokUrl url) = false →
      downloadVideo opts env url = invalidUrlResult ∧
        ∀ env', downloadVideo opts env' url = downloadVideo opts env url) ∧
    (isValidTikTokUrl (cleanTikTokUrl url) = true →
      extractVideoId (cleanTikTokUrl url) = none →
      downloadVideo opts env url = noIdResult ∧
        ∀ env', downloadVideo opts env' url = downloadVideo opts env url) ∧
    (∀ vid, isValidTikTokUrl (cleanTikTokUrl url) = true →
      extractVideoId (cleanTikTokUrl url) = some vid →
      fetchVideoData env.page (cleanTikTokUrl url) = none →
      downloadVideo opts env url = noDataResult) ∧
    (∀ vid vd, isValidTikTokUrl (cleanTikTokUrl url) = true →
      extractVideoId (cleanTikTokUrl url) = some vid →
      fetchVideoData env.page (cleanTikTokUrl url) = some vd →
      downloadVideo opts env url
        = successResult vd (extractDownloadUrls opts env.mirror vd)) := by
  refine ⟨?_, ?_, ?_, ?_⟩
  · intro hv
    refine ⟨(downloadVideo_invalid hv).2, fun env' => ?_⟩
    rw [(@downloadVideo_invalid opts env' url hv).2, (@downloadVideo_invalid opts env url hv).2]
  · intro hv hid
    refine ⟨(downloadVideo_noId hv hid).2, fun env' => ?_⟩
    rw [(@downloadVideo_noId opts env' url hv hid).2, (@downloadVideo_noId opts env url hv hid).2]
  · intro vid hv hid hf
    exact (downloadVideo_noData hv hid hf).2
  · intro vid vd hv hid hf
    exact (downloadVideo_success hv hid hf).2

/-- Claim C3 witness: the three fail-fast envelopes and the success
    envelope observed at concrete inputs, via the theorem. -/
theorem claim3_witness :
    (isValidTikTokUrl (cleanTikTokUrl "not a url") = false ∧
      downloadVideo defaultOptions fixtureEnv "not a url" = invalidUrlResult) ∧
    (downloadVideo defaultOptions fixtureEnv "https://vm.tiktok.com/ZMabc"
      = noIdResult) ∧
    (downloadVideo defaultOptions failingEnv "https://www.tiktok.com/@demo/video/111222333"
      = noDataResult) ∧
    (downloadVideo defaultOptions fixtureEnv "https://www.tiktok.com/@demo/video/111222333"
      = successResult (projectVideoInfo fixtureItem)
          (extractDownloadUrls defaultOptions fixtureEnv.mirror (projectVideoInfo fixtureItem))) := by
  refine ⟨⟨by decide, ?_⟩, ?_, ?_, ?_⟩
  · exact ((claim3_pipeline_order defaultOptions fixtureEnv "not a url").1 (by decide)).1
  · exact ((claim3_pipeline_order defaultOptions fixtureEnv "https://vm.tiktok.com/ZMabc").2.1
      (by decide) (by decide)).1
  · exact (claim3_pipeline_order defaultOptions failingEnv
      "https://www.tiktok.com/@demo/video/111222333").2.2.1 "111222333" (by decide) (by decide) rfl
  · exact (claim3_pipeline_order defaultOptions fixtureEnv
      "https://www.tiktok.com/@demo/video/111222333").2.2.2 "111222333"
      (projectVideoInfo fixtureItem) (by decide) (by decide) rfl

/-- Claim C9: every `TikTokDownloadResult` produced by `downloadVideo`
    populates exactly one payload: on success the `data` field is present
    and `error` is absent; on failure `error` is present and `data` is
    absent. -/
theorem claim9_payload_exclusive (opts : TikTokDownloaderOptions) (env : NetworkEnv)
    (url : String) :
    ((downloadVideo opts env url).success = true ∧
      (∃ dd, (downloadVideo opts env url).data = some dd) ∧
      (downloadVideo opts env url).error = none) ∨
    ((downloadVideo opts env url).success = false ∧
      (∃ e, (downloadVideo opts env url).error = some e) ∧
      (downloadVideo opts env url).data = none) := by
  cases hv : isValidTikTokUrl (cleanTikTokUrl url) with
  | false =>
    right
    rw [(downloadVideo_invalid hv).2]
    exact ⟨rfl, ⟨_, rfl⟩, rfl⟩
  | true =>
    cases hid : extractVideoId (cleanTikTokUrl url) with
    | none =>
      right
      rw [(downloadVideo_noId hv hid).2]
      exact ⟨rfl, ⟨_, rfl⟩, rfl⟩
    | some vid =>
      cases hf : fetchVideoData env.page (cleanTikTokUrl url) with
      | none =>
        right
        rw [(downloadVideo_noData hv hid hf).2]
        exact ⟨rfl, ⟨_, rfl⟩, rfl⟩
      | some vd =>
        left
        rw [(downloadVideo_success hv hid hf).2]
        exact ⟨rfl, ⟨_, rfl⟩, rfl⟩

/-- Claim C9 witness: the theorem applied at concrete inputs. -/
theorem claim9_witness :
    ((downloadVideo defaultOptions fixtureEnv "x").success = true ∧
      (∃ dd, (downloadVideo defaultOptions fixtureEnv "x").data = some dd) ∧
      (downloadVideo defaultOptions fixtureEnv "x").error = none) ∨
    ((downloadVideo defaultOptions fixtureEnv "x").success = false ∧
      (∃ e, (downloadVideo defaultOptions fixtureEnv "x").error = some e) ∧
      (downloadVideo defaultOptions fixtureEnv "x").data = none) :=
  claim9_payload_exclusive defaultOptions fixtureEnv "x"

/-- Claim C4: `cleanTikTokUrl` first trims surrounding whitespace; if the
    trimmed string contains "vm.tiktok.com" or "vt.tiktok.com" it is
    returned as-is; otherwise, if the trimmed string contains a substring
    fully matching the canonical optional-scheme/optional-www
    `tiktok.com/@<handle>/video/<digits>` pattern, the matched substring
    alone is returned (it occurs in the trimmed string and itself matches
    the pattern); otherwise the trimmed string is returned unchanged.  In
    particular the documented concrete normalization holds. -/
theorem claim4_normalization (u : String) :
    ((containsSub "vm.tiktok.com".data (trimChars u.data)
        || containsSub "vt.tiktok.com".data (trimChars u.data)) = true →
      cleanTikTokUrl u = ⟨trimChars u.data⟩) ∧
    ((containsSub "vm.tiktok.com".data (trimChars u.data)
        || containsSub "vt.tiktok.com".data (trimChars u.data)) = false →
      ContainsCanon (trimChars u.data) →
      ∃ m, cleanTikTokUrl u = ⟨m⟩ ∧ CanonExact m ∧
        ∃ pre post, trimChars u.data = pre ++ m ++ post) ∧
    ((containsSub "vm.tiktok.com".data (trimChars u.data)
        || containsSub "vt.tiktok.com".data (trimChars u.data)) = false →
      ¬ ContainsCanon (trimChars u.data) →
      cleanTikTokUrl u = ⟨trimChars u.data⟩) ∧
    cleanTikTokUrl "  https://www.tiktok.com/@user/video/1234567890  "
      = "https://www.tiktok.com/@user/video/1234567890" := by
  refine ⟨fun h => cleanTikTokUrl_shortlink h, ?_, ?_, by decide⟩
  · intro h hcc
    obtain ⟨pre, m0, post, heq, s, w, hs, d, hos, hww, hhp, hdp, hm0⟩ := hcc
    obtain ⟨r, hr⟩ := canonOptRest_build post hos hww hhp hdp
    have hrest : canonOptRest (m0 ++ post) = some r := by
      rw [hm0]
      rw [show (s ++ w ++ "tiktok.com/@".data ++ hs ++ "/video/".data ++ d) ++ post
          = s ++ w ++ "tiktok.com/@".data ++ hs ++ "/video/".data ++ d ++ post by
        simp [List.append_assoc]]
      exact hr
    obtain ⟨m, hm⟩ := findCanonMatch_build pre (m0 ++ post) ⟨r, hrest⟩
    have hmatch : findCanonMatch (trimChars u.data) = some m := by
      rw [show trimChars u.data = pre ++ (m0 ++ post) by rw [heq]; simp [List.append_assoc]]
      exact hm
    obtain ⟨hex, pre2, post2, hsplit⟩ := findCanonMatch_some hmatch
    refine ⟨m, ?_, hex, pre2, post2, hsplit⟩
    unfold cleanTikTokUrl
    rw [if_neg (by simp [h]), hmatch]
  · intro h hncc
    cases hfm : findCanonMatch (trimChars u.data) with
    | none => exact cleanTikTokUrl_nomatch h hfm
    | some m =>
      exfalso
      obtain ⟨hex, pre, post, hsplit⟩ := findCanonMatch_some hfm
      exact hncc ⟨pre, m, post, hsplit, hex⟩

/-- Claim C4 witness: the theorem's conjuncts applied at concrete inputs:
    the concrete normalization example, a short link passed through
    unchanged, and a no-match string returned trimmed. -/
theorem claim4_witness :
    cleanTikTokUrl "  https://www.tiktok.com/@user/video/1234567890  "
        = "https://www.tiktok.com/@user/video/1234567890" ∧
    cleanTikTokUrl "https://vm.tiktok.com/ZMabc" = "https://vm.tiktok.com/ZMabc" ∧
    cleanTikTokUrl " nothing here " = "nothing here" := by
  refine ⟨(claim4_normalization "  https://www.tiktok.com/@user/video/1234567890  ").2.2.2,
    ?_, ?_⟩
  · have h := (claim4_normalization "https://vm.tiktok.com/ZMabc").1 (by decide)
    rw [h]
    decide
  · have h := (claim4_normalization " nothing here ").2.2.1 (by decide) ?_
    · rw [h]
      decide
    · intro hcc
      obtain ⟨pre, m0, post, heq, s, w, hs, d, hos, hww, hhp, hdp, hm0⟩ := hcc
      obtain ⟨r, hr⟩ := canonOptRest_build post hos hww hhp hdp
      have hrest : canonOptRest (m0 ++ post) = some r := by
        rw [hm0]
        rw [show (s ++ w ++ "tiktok.com/@".data ++ hs ++ "/video/".data ++ d) ++ post
            = s ++ w ++ "tiktok.com/@".data ++ hs ++ "/video/".data ++ d ++ post by
          simp [List.append_assoc]]
        exact hr
      obtain ⟨m, hm⟩ := findCanonMatch_build pre (m0 ++ post) ⟨r, hrest⟩
      have hmatch : findCanonMatch (trimChars " nothing here ".data) = some m := by
        rw [show trimChars " nothing here ".data = pre ++ (m0 ++ post) by
          rw [heq]; simp [List.append_assoc]]
        exact hm
      rw [show trimChars " nothing here ".data = "nothing here".data from rfl] at hmatch
      have : findCanonMatch "nothing here".data = none := by decide
      rw [this] at hmatch
      exact Option.noConfusion hmatch

/-- Claim C5: `extractVideoId` returns the digits captured by the first
    matching pattern in priority order `/video/<digits>`, `/v/<digits>`,
    `video_id=<digits>`; when none of the three patterns occurs anywhere in
    the string it returns the not-found sentinel `none`.  Each returned
    capture is a non-empty digit run occurring right after the pattern's
    literal. -/
theorem claim5_extract_id (u : String) :
    (extractVideoId u = none ↔
      ¬ PatOccurs "/video/".data u.data ∧ ¬ PatOccurs "/v/".data u.data ∧
        ¬ PatOccurs "video_id=".data u.data) ∧
    (PatOccurs "/video/".data u.data →
      ∃ d, extractVideoId u = some ⟨d⟩ ∧ DigitsP d ∧
        ∃ pre post, u.data = pre ++ "/video/".data ++ d ++ post) ∧
    (¬ PatOccurs "/video/".data u.data → PatOccurs "/v/".data u.data →
      ∃ d, extractVideoId u = some ⟨d⟩ ∧ DigitsP d ∧
        ∃ pre post, u.data = pre ++ "/v/".data ++ d ++ post) ∧
    (¬ PatOccurs "/video/".data u.data → ¬ PatOccurs "/v/".data u.data →
      PatOccurs "video_id=".data u.data →
      ∃ d, extractVideoId u = some ⟨d⟩ ∧ DigitsP d ∧
        ∃ pre post, u.data = pre ++ "video_id=".data ++ d ++ post) := by
  refine ⟨?_, ?_, ?_, ?_⟩
  · rw [extractVideoId_none_iff,
      findLitThenDigits_none_iff (by decide), findLitThenDigits_none_iff (by decide),
      findLitThenDigits_none_iff (by decide)]
  · intro hocc
    cases h1 : findLitThenDigits "/video/".data u.data with
    | none => exact absurd hocc ((findLitThenDigits_none_iff (by decide)).mp h1)
    | some d =>
      obtain ⟨hd, pre, post, heq⟩ := findLitThenDigits_some h1
      exact ⟨d, extractVideoId_first h1, hd, pre, post, heq⟩
  · intro hno1 hocc
    have h1 : findLitThenDigits "/video/".data u.data = none :=
      (findLitThenDigits_none_iff (by decide)).mpr hno1
    cases h2 : findLitThenDigits "/v/".data u.data with
    | none => exact absurd hocc ((findLitThenDigits_none_iff (by decide)).mp h2)
    | some d =>
      obtain ⟨hd, pre, post, heq⟩ := findLitThenDigits_some h2
      exact ⟨d, extractVideoId_second h1 h2, hd, pre, post, heq⟩
  · intro hno1 hno2 hocc
    have h1 : findLitThenDigits "/video/".data u.data = none :=
      (findLitThenDigits_none_iff (by decide)).mpr hno1
    have h2 : findLitThenDigits "/v/".data u.data = none :=
      (findLitThenDigits_none_iff (by decide)).mpr hno2
    cases h3 : findLitThenDigits "video_id=".data u.data with
    | none => exact absurd hocc ((findLitThenDigits_none_iff (by decide)).mp h3)
    | some d =>
      obtain ⟨hd, pre, post, heq⟩ := findLitThenDigits_some h3
      exact ⟨d, extractVideoId_third h1 h2 h3, hd, pre, post, heq⟩

/-- Claim C5 witness: the theorem applied at concrete URLs — a canonical
    URL yields its digits, and a patternless URL yields the sentinel. -/
theorem claim5_witness :
    (∃ d, extractVideoId "https://www.tiktok.com/@user/video/1234567890" = some ⟨d⟩ ∧
      DigitsP d ∧ ∃ pre post,
        "https://www.tiktok.com/@user/video/1234567890".data
          = pre ++ "/video/".data ++ d ++ post) ∧
    extractVideoId "https://vm.tiktok.com/ZMabc" = none := by
  constructor
  · exact (claim5_extract_id "https://www.tiktok.com/@user/video/1234567890").2.1
      ⟨"https://www.tiktok.com/@user".data, '1',
        "234567890".data, by decide, by decide⟩
  · exact (claim5_extract_id "https://vm.tiktok.com/ZMabc").1.mpr
      ⟨(findLitThenDigits_none_iff (by decide)).mp (by decide),
        (findLitThenDigits_none_iff (by decide)).mp (by decide),
        (findLitThenDigits_none_iff (by decide)).mp (by decide)⟩

/-- Claim C6: whenever the page oracle yields a navigated `itemStruct`,
    `fetchVideoData` succeeds with its projection into `TikTokVideoInfo`,
    whose four counters are the corresponding `stats` fields with absent
    counters defaulting to 0 (`likeCount` comes from `diggCount`), and
    whose `title` and `description` are both the payload's `desc`,
    defaulting to the empty string when `desc` is absent. -/
theorem claim6_projection (page : String → PageOutcome) (url : String) (item : ItemStruct)
    (h : page url = PageOutcome.ok item) :
    fetchVideoData page url = some (projectVideoInfo item) ∧
    (projectVideoInfo item).playCount = item.stats.playCount.getD 0 ∧
    (projectVideoInfo item).likeCount = item.stats.diggCount.getD 0 ∧
    (projectVideoInfo item).commentCount = item.stats.commentCount.getD 0 ∧
    (projectVideoInfo item).shareCount = item.stats.shareCount.getD 0 ∧
    (projectVideoInfo item).title = item.desc.getD "" ∧
    (projectVideoInfo item).description = item.desc.getD "" := by
  refine ⟨?_, rfl, rfl, rfl, rfl, rfl, rfl⟩
  unfold fetchVideoData
  rw [h]

/-- Claim C6 witness: the theorem applied to the fixture payload with
    `diggCount = 42` and absent `playCount`/`desc`; the projected record
    has `likeCount = 42`, `playCount = 0` and empty title. -/
theorem claim6_witness :
    fetchVideoData (fun _ => PageOutcome.ok fixtureItem)
        "https://www.tiktok.com/@demo/video/111222333" = some (projectVideoInfo fixtureItem) ∧
    (projectVideoInfo fixtureItem).likeCount = 42 ∧
    (projectVideoInfo fixtureItem).playCount = 0 ∧
    (projectVideoInfo fixtureItem).title = "" :=
  ⟨(claim6_projection (fun _ => PageOutcome.ok fixtureItem)
      "https://www.tiktok.com/@demo/video/111222333" fixtureItem rfl).1,
    by decide, by decide, by decide⟩

/-- Claim C7: when `includeWatermark` is true the resolved download URLs
    are always the two-field result without a `watermarkFree` entry, and
    the outcome does not depend on the mirror oracle at all — no mirror
    request is attempted. -/
theorem claim7_watermark_skips_mirror (opts : TikTokDownloaderOptions)
    (m : String → MirrorOutcome) (vi : TikTokVideoInfo)
    (h : opts.includeWatermark = true) :
    extractDownloadUrls opts m vi
        = { video := vi.videoUrl, audio := some vi.music.url, watermarkFree := none } ∧
    (extractDownloadUrls opts m vi).watermarkFree = none ∧
    ∀ m' : String → MirrorOutcome, extractDownloadUrls opts m vi = extractDownloadUrls opts m' vi := by
  have he : ∀ m2 : String → MirrorOutcome, extractDownloadUrls opts m2 vi
      = { video := vi.videoUrl, audio := some vi.music.url, watermarkFree := none } := by
    intro m2
    unfold extractDownloadUrls
    rw [h]
    simp
  exact ⟨he m, by rw [he m], fun m' => by rw [he m, he m']⟩

/-- Claim C7 witness: the theorem applied with watermark options and a
    mirror oracle that would offer a watermark-free URL — which is ignored. -/
theorem claim7_witness :
    extractDownloadUrls watermarkOptions (fun _ => MirrorOutcome.noWatermark "https://mirror/x")
        (projectVideoInfo fixtureItem)
      = { video := (projectVideoInfo fixtureItem).videoUrl,
          audio := some (projectVideoInfo fixtureItem).music.url, watermarkFree := none } :=
  (claim7_watermark_skips_mirror watermarkOptions
    (fun _ => MirrorOutcome.noWatermark "https://mirror/x") (projectVideoInfo fixtureItem) rfl).1

/-- Claim C8: when `includeWatermark` is false and the mirror API fails in
    any way (request error, or a response without the `video.noWatermark`
    field — which also covers malformed JSON), a pipeline run that reaches
    the resolver still produces a success envelope whose download URLs
    carry the video URL and the audio URL but no `watermarkFree` entry:
    the mirror step never fails the operation. -/
theorem claim8_mirror_degrades (opts : TikTokDownloaderOptions) (env : NetworkEnv)
    (url vid : String) (item : ItemStruct)
    (hw : opts.includeWatermark = false)
    (hv : isValidTikTokUrl (cleanTikTokUrl url) = true)
    (hid : extractVideoId (cleanTikTokUrl url) = some vid)
    (hpage : env.page (cleanTikTokUrl url) = PageOutcome.ok item)
    (hmirror : (∃ msg, env.mirror (apiUrl item.id) = MirrorOutcome.netError msg)
      ∨ env.mirror (apiUrl item.id) = MirrorOutcome.noVideoField) :
    downloadVideo opts env url
      = successResult (projectVideoInfo item)
          { video := (projectVideoInfo item).videoUrl,
            audio := some (projectVideoInfo item).music.url, watermarkFree := none } := by
  have hf : fetchVideoData env.page (cleanTikTokUrl url) = some (projectVideoInfo item) := by
    unfold fetchVideoData
    rw [hpage]
  have hwf : getWatermarkFreeUrl env.mirror (projectVideoInfo item).id = none := by
    have hid2 : (projectVideoInfo item).id = item.id := rfl
    unfold getWatermarkFreeUrl
    rw [hid2]
    rcases hmirror with ⟨msg, hm⟩ | hm
    · rw [hm]
    · rw [hm]
  have hurls : extractDownloadUrls opts env.mirror (projectVideoInfo item)
      = { video := (projectVideoInfo item).videoUrl,
          audio := some (projectVideoInfo item).music.url, watermarkFree := none } := by
    unfold extractDownloadUrls
    rw [hw]
    simp only [Bool.not_false, if_true, hwf]
  rw [(downloadVideo_success hv hid hf).2, hurls]

/-- Claim C8 witness: the theorem applied to a concrete run against a
    mirror oracle returning a body without `video.noWatermark`. -/
theorem claim8_witness :
    downloadVideo defaultOptions fixtureEnv "https://www.tiktok.com/@demo/video/111222333"
      = successResult (projectVideoInfo fixtureItem)
          { video := (projectVideoInfo fixtureItem).videoUrl,
            audio := some (projectVideoInfo fixtureItem).music.url, watermarkFree := none } :=
  claim8_mirror_degrades defaultOptions fixtureEnv
    "https://www.tiktok.com/@demo/video/111222333" "111222333" fixtureItem rfl
    (by decide) (by decide) rfl (Or.inr rfl)

/-- Claim C10: a short-link URL accepted by validation (vm or vt form of
    the trimmed input) that contains none of the three ID patterns —
    i.e. the ID extractor returns the sentinel on it — always produces the
    "Could not extract video ID from URL" failure envelope: normalization
    passes short links through unresolved, validation accepts them, and the
    pipeline stops before any fetch (the envelope is a constant,
    independent of both oracles). -/
theorem claim10_shortlink_stops (opts : TikTokDownloaderOptions) (env : NetworkEnv)
    (url : String)
    (hshape : HostShape SchemeP "vm.tiktok.com/".data isAlnumChar (trimChars url.data)
      ∨ HostShape SchemeP "vt.tiktok.com/".data isAlnumChar (trimChars url.data))
    (hid : extractVideoId ⟨trimChars url.data⟩ = none) :
    cleanTikTokUrl url = ⟨trimChars url.data⟩ ∧
    isValidTikTokUrl (cleanTikTokUrl url) = true ∧
    downloadVideo opts env url = noIdResult := by
  have hcontains : (containsSub "vm.tiktok.com".data (trimChars url.data)
      || containsSub "vt.tiktok.com".data (trimChars url.data)) = true := by
    rw [Bool.or_eq_true]
    rcases hshape with ⟨s, c, r, hs, hc, heq⟩ | ⟨s, c, r, hs, hc, heq⟩
    · left
      rw [heq, show "vm.tiktok.com/".data = "vm.tiktok.com".data ++ ['/'] from rfl,
        show s ++ ("vm.tiktok.com".data ++ ['/']) ++ c :: r
          = s ++ "vm.tiktok.com".data ++ ('/' :: c :: r) by simp [List.append_assoc]]
      exact containsSub_of_decomp "vm.tiktok.com".data s ('/' :: c :: r)
    · right
      rw [heq, show "vt.tiktok.com/".data = "vt.tiktok.com".data ++ ['/'] from rfl,
        show s ++ ("vt.tiktok.com".data ++ ['/']) ++ c :: r
          = s ++ "vt.tiktok.com".data ++ ('/' :: c :: r) by simp [List.append_assoc]]
      exact containsSub_of_decomp "vt.tiktok.com".data s ('/' :: c :: r)
  have hclean : cleanTikTokUrl url = ⟨trimChars url.data⟩ := cleanTikTokUrl_shortlink hcontains
  have hvalid : isValidTikTokUrl (cleanTikTokUrl url) = true := by
    rw [hclean]
    show (testCanonical (trimChars url.data) || testVm (trimChars url.data)
      || testVt (trimChars url.data) || testMobile (trimChars url.data)) = true
    rcases hshape with hsh | hsh
    · have hvm : testVm (trimChars url.data) = true := by
        unfold testVm
        exact testHost_iff.mpr hsh
      rw [hvm]
      simp
    · have hvt : testVt (trimChars url.data) = true := by
        unfold testVt
        exact testHost_iff.mpr hsh
      rw [hvt]
      simp
  have hid' : extractVideoId (cleanTikTokUrl url) = none := by
    rw [hclean]
    exact hid
  exact ⟨hclean, hvalid, (downloadVideo_noId hvalid hid').2⟩

/-- Claim C10 witness: the theorem applied to the concrete short link
    "https://vm.tiktok.com/ZMabc". -/
theorem claim10_witness :
    cleanTikTokUrl "https://vm.tiktok.com/ZMabc" = "https://vm.tiktok.com/ZMabc" ∧
    isValidTikTokUrl "https://vm.tiktok.com/ZMabc" = true ∧
    downloadVideo defaultOptions fixtureEnv "https://vm.tiktok.com/ZMabc" = noIdResult := by
  have h := claim10_shortlink_stops defaultOptions fixtureEnv "https://vm.tiktok.com/ZMabc"
    (Or.inl ⟨"https://".data, 'Z', "Mabc".data, Or.inr rfl, by decide, by decide⟩)
    (by decide)
  refine ⟨h.1.trans (by decide), ?_, h.2.2⟩
  have h2 := h.2.1
  rw [h.1] at h2
  rw [show (⟨trimChars "https://vm.tiktok.com/ZMabc".data⟩ : String)
      = "https://vm.tiktok.com/ZMabc" by decide] at h2
  exact h2
